import Mathlib

/-!
Verification of the psycopg version-capability layer, libpq helper functions
and the connection state machine described by the project documentation.

The pure functions (`version_pretty`, `strip_severity`, `error_message`,
`Capabilities._has_feature`) are embedded directly from
`psycopg/pq/misc.py` and `psycopg/_capabilities.py`.  The connection state
machine, encoding negotiation and notice dispatcher are modelled from the
specification, since their implementation module is not among the sources
here (only their test suite `tests/test_async_connection.py` is).
-/

namespace Psycopg

/-- `version_pretty` from `psycopg/pq/misc.py`:

    version, patch = divmod(version, 100)
    major, minor = divmod(version, 100)
    if major >= 10 and minor == 0: return f"{major}.{patch}"
    else: return f"{major}.{minor}.{patch}"

For instance 140002 renders as "14.2" and 90610 as "9.6.10". -/
def version_pretty (version : Nat) : String :=
  let patch := version % 100
  let version1 := version / 100
  let major := version1 / 100
  let minor := version1 % 100
  if 10 ≤ major ∧ minor = 0 then
    toString major ++ "." ++ toString patch
  else
    toString major ++ "." ++ toString minor ++ "." ++ toString patch

/-- The psycopg exception classes appearing in the verified fragments. -/
inductive PgError where
  | OperationalError
  | ProgrammingError
  | DatabaseError
  | NotSupportedError (msg : String)
deriving DecidableEq

/-- Observed state of the `pq` module used by `Capabilities`:
`pq.version()` (runtime version of the loaded libpq),
`pq.__build_version__` (version the wrapper was built against),
`pq.__impl__` (implementation name, e.g. "binary", "c", "python"), and
`_cmodule.__version__` (version of the binary package, when any). -/
structure PqModule where
  version : Nat
  build_version : Nat
  impl : String
  cmodule_version : Option String
deriving DecidableEq

/-- `Capabilities._libpq_source` from `psycopg/_capabilities.py`:
where the libpq comes from.  Python's `_cmodule.__version__ or "unknown"`
treats both `None` and the empty string as falsy. -/
def libpq_source (pq : PqModule) : String :=
  if pq.impl = "binary" then
    let v :=
      match pq.cmodule_version with
      | some s => if s = "" then "unknown" else s
      | none => "unknown"
    "the psycopg[binary] package version " ++ v
  else
    "system libraries"

/-- The message built by `Capabilities._has_feature`.  The Python code uses a
string `msg` that stays empty when the feature is available; since both
assigned messages begin with the nonempty literal "the feature '", emptiness
of `msg` coincides with this `Option` being `none`.  (`\x27` is the
apostrophe character used by the f-strings.) -/
def feature_msg (pq : PqModule) (feature : String) (want_version : Nat) : Option String :=
  if pq.version < want_version then
    some ("the feature \x27" ++ feature ++ "\x27 is not available:"
      ++ " the client libpq version (imported from " ++ libpq_source pq ++ ")"
      ++ " is " ++ version_pretty pq.version ++ "; the feature"
      ++ " requires libpq version " ++ version_pretty want_version
      ++ " or newer")
  else if pq.build_version < want_version then
    some ("the feature \x27" ++ feature ++ "\x27 is not available:"
      ++ " you are using a psycopg[" ++ pq.impl ++ "] libpq wrapper built"
      ++ " with libpq version " ++ version_pretty pq.build_version ++ ";"
      ++ " the feature requires libpq version"
      ++ " " ++ version_pretty want_version ++ " or newer")
  else none

/-- `Capabilities._has_feature` from `psycopg/_capabilities.py`: returns a
boolean, or raises `NotSupportedError msg` when the feature is unavailable
and `check` is true. -/
def has_feature (pq : PqModule) (feature : String) (want_version : Nat) (check : Bool) :
    Except PgError Bool :=
  match feature_msg pq feature want_version with
  | none => .ok true
  | some msg => if check then .error (.NotSupportedError msg) else .ok false

/-- `sub` occurs as a contiguous substring of `s`. -/
def str_contains (s sub : String) : Prop := sub.data <:+: s.data

instance (s sub : String) : Decidable (str_contains s sub) :=
  inferInstanceAs (Decidable (sub.data <:+: s.data))

/-- A pq module with runtime version 13.0 and build version 12.0. -/
def pqSkew : PqModule := ⟨130000, 120000, "c", none⟩

/-- The message raised by `has_feature pqSkew "f" 140000 true`. -/
def msgSkew : String := (feature_msg pqSkew "f" 140000).getD ""

/-- Python's `\s` character class on the characters appearing here:
space, tab, newline, carriage return, vertical tab, form feed. -/
def isSpace (c : Char) : Bool :=
  c == ' ' || c == '\t' || c == '\n' || c == '\r' || c == '\x0b' || c == '\x0c'

/-- The `PREFIXES` alternatives of `psycopg/pq/misc.py`, in source order:
the severity words of the known localizations (the regex is written in
verbose mode, so its only literal whitespace is the escaped space of the
Turkish entry). -/
def severityPrefixes : List String := [
  "DEBUG", "INFO", "HINWEIS", "WARNUNG", "FEHLER", "LOG", "FATAL", "PANIK",
  "DEBUG", "INFO", "NOTICE", "WARNING", "ERROR", "LOG", "FATAL", "PANIC",
  "DEBUG", "INFO", "NOTICE", "WARNING", "ERROR", "LOG", "FATAL", "PANIC",
  "DEBUG", "INFO", "NOTICE", "ATTENTION", "ERREUR", "LOG", "FATAL", "PANIC",
  "DEBUG", "INFO", "NOTICE", "PERINGATAN", "ERROR", "LOG", "FATAL", "PANIK",
  "DEBUG", "INFO", "NOTIFICA", "ATTENZIONE", "ERRORE", "LOG", "FATALE", "PANICO",
  "DEBUG", "INFO", "NOTICE", "WARNING", "ERROR", "LOG", "FATAL", "PANIC",
  "디버그", "정보", "알림", "경고", "오류", "로그", "치명적오류", "손상",
  "DEBUG", "INFORMACJA", "UWAGA", "OSTRZEŻENIE", "BŁĄD", "DZIENNIK", "KATASTROFALNY", "PANIKA",
  "DEPURAÇÃO", "INFO", "NOTA", "AVISO", "ERRO", "LOG", "FATAL", "PÂNICO",
  "ОТЛАДКА", "ИНФОРМАЦИЯ", "ЗАМЕЧАНИЕ", "ПРЕДУПРЕЖДЕНИЕ", "ОШИБКА", "СООБЩЕНИЕ", "ВАЖНО", "ПАНИКА",
  "DEBUG", "INFO", "NOTIS", "VARNING", "FEL", "LOGG", "FATALT", "PANIK",
  "DEBUG", "BİLGİ", "NOT", "UYARI", "HATA", "LOG", "ÖLÜMCÜL (FATAL)", "KRİTİK",
  "НАЛАГОДЖЕННЯ", "ІНФОРМАЦІЯ", "ПОВІДОМЛЕННЯ", "ПОПЕРЕДЖЕННЯ", "ПОМИЛКА", "ЗАПИСУВАННЯ", "ФАТАЛЬНО", "ПАНІКА",
  "调试", "信息", "注意", "警告", "错误", "日志", "致命错误", "比致命错误还过分的错误"]

/-- The attempt of one regex alternative `p` at the start of `msg`: the
pattern is `p` followed by a colon followed by at least one whitespace
character (`\s+`, greedy, so the whole whitespace run is consumed). -/
def severityStep (p : String) (msg : List Char) : Option (List Char) :=
  if (p.data ++ [':']).isPrefixOf msg then
    match msg.drop (p.data ++ [':']).length with
    | [] => none
    | c :: cs => if isSpace c then some (List.dropWhile isSpace (c :: cs)) else none
  else none

/-- `PREFIXES.match(msg)` of `psycopg/pq/misc.py`, returning what remains of
`msg` after the matched prefix (`msg[m.span()[1]:]`), or `none` when the
regex does not match at position 0. -/
def matchSeverity (msg : List Char) : Option (List Char) :=
  severityPrefixes.findSome? (fun p => severityStep p msg)

/-- Python's `str.strip()` on a list of characters. -/
def trimChars (l : List Char) : List Char :=
  ((l.dropWhile isSpace).reverse.dropWhile isSpace).reverse

/-- `strip_severity` from `psycopg/pq/misc.py`: strip a recognized severity
prefix and surrounding whitespace from an error message. -/
def strip_severity (msg : String) : String :=
  match matchSeverity msg.data with
  | some rest => String.mk (trimChars rest)
  | none => String.mk (trimChars msg.data)

/-- Argument of `error_message` in `psycopg/pq/misc.py`: either a `PGresult`
(recognized via its `error_field` attribute) or a `PGconn` (recognized via
`error_message`); anything else raises `TypeError`, which cannot arise for
these two shapes.  `statusOk` records whether `PQstatus` is `CONNECTION_OK`;
`conn_encoding` models `pgconn_encoding(obj)`, the client encoding of the
live connection (that helper lives in the external `_encodings`
collaborator); the error message itself is a byte string. -/
inductive PqObj where
  | result (error_message : List Nat)
  | conn (statusOk : Bool) (conn_encoding : String) (error_message : List Nat)

/-- The byte string `bmsg` read from the object. -/
def bmsgOf : PqObj → List Nat
  | .result b => b
  | .conn _ _ b => b

/-- The encoding `error_message` decodes with: the connection's own encoding
when the object is a connection with `status == OK`, else the fallback
parameter. -/
def encodingUsed : PqObj → String → String
  | .result _, enc => enc
  | .conn ok connEnc _, enc => if ok then connEnc else enc

/-- `error_message` from `psycopg/pq/misc.py`.  `decode enc bytes` models
Python's `bytes.decode(enc, "replace")`: total, never raises, undecodable
bytes replaced; it is passed as a parameter because the codec machinery is
the host language's, not this repository's. -/
def error_message (decode : String → List Nat → String) (obj : PqObj)
    (encoding : String) : String :=
  let bmsg := bmsgOf obj
  if bmsg = [] then "no details available"
  else strip_severity (decode (encodingUsed obj encoding) bmsg)

/-- Connection status (spec §3): OK on successful handshake, BAD on failure
or after close; never reverts from BAD. -/
inductive ConnStatus where
  | OK
  | BAD
deriving DecidableEq

/-- Transaction status (spec §3): meaningful only while the connection is
OK; UNKNOWN once it is BAD. -/
inductive TransactionStatus where
  | IDLE
  | INTRANS
  | INERROR
  | UNKNOWN
deriving DecidableEq

/-- Modelled from the spec: the EncodingEntry static alias table (§4.2, §8)
of the encodings module, which is not among the sources here.  Keys are
normalized aliases; values are the canonical server-side name and the local
codec, `none` when the encoding is recognized server-side but has no local
codec (the EUC_TW case). -/
def encodings : List (String × String × Option String) :=
  [("utf8", "UTF8", some "utf-8"),
   ("eucjp", "EUC_JP", some "euc_jp"),
   ("latin1", "LATIN1", some "iso8859-1"),
   ("euctw", "EUC_TW", none)]

/-- Modelled from the spec: alias comparison is case-insensitive and ignores
"-" and "_" separators (§4.2). -/
def normalize_alias (name : String) : String :=
  String.mk ((name.data.filter (fun c => c != '-' && c != '_')).map Char.toLower)

/-- Modelled from the spec: look an encoding name up in the alias table. -/
def lookup_encoding (name : String) : Option (String × Option String) :=
  (encodings.find? (fun e => e.1 == normalize_alias name)).map (fun e => e.2)

/-- Modelled from the spec: the Connection state (§3): status, transaction
status, autocommit flag, canonical client encoding and resolved codec
(`none` while unresolved). -/
structure Conn where
  status : ConnStatus
  transaction_status : TransactionStatus
  autocommit : Bool
  encoding : String
  codec : Option String
deriving DecidableEq

/-- Modelled from the spec: `closed` is derived from `status == BAD` (§3). -/
def closed (c : Conn) : Bool := decide (c.status = .BAD)

/-- Modelled from the spec: `close()` (§4.4) — idempotent: if already BAD,
no-op; otherwise releases the session and sets status BAD (and the
transaction status becomes UNKNOWN once BAD, §3).  Never fails, hence a
total function. -/
def close (c : Conn) : Conn :=
  if c.status = .BAD then c
  else { c with status := .BAD, transaction_status := .UNKNOWN }

/-- The data-model invariant of §3: the transaction status is UNKNOWN once
the connection is BAD. -/
def WF (c : Conn) : Prop := c.status = .BAD → c.transaction_status = .UNKNOWN

/-- Modelled from the spec: the autocommit setter (§4.4) — fails with
`ProgrammingError` unless `status == OK` and `transaction_status == IDLE`;
on failure the connection is returned unchanged. -/
def set_autocommit (c : Conn) (value : Bool) : Conn × Option PgError :=
  if c.status = .OK ∧ c.transaction_status = .IDLE then
    ({ c with autocommit := value }, none)
  else (c, some .ProgrammingError)

/-- How the server responds to one submitted statement: accepted, rejected,
or the connection is lost while the statement is in flight. -/
inductive ServerOutcome where
  | accepted
  | rejected
  | connectionLost
deriving DecidableEq

/-- Modelled from the spec: `execute` (§4.4, §4.2, §7) — `OperationalError`
when the connection is not OK; `NotSupportedError` when the statement
requires local decoding and the codec is unresolved; with autocommit off an
accepted statement auto-begins (IDLE becomes IN_TRANSACTION); a rejected
statement sets IN_ERROR and surfaces `DatabaseError`; connection loss in
flight sets BAD/UNKNOWN and surfaces `OperationalError`. -/
def execute (c : Conn) (needs_decoding : Bool) (outcome : ServerOutcome) :
    Conn × Option PgError :=
  if c.status ≠ .OK then (c, some .OperationalError)
  else if needs_decoding ∧ c.codec = none then
    (c, some (.NotSupportedError c.encoding))
  else
    match outcome with
    | .accepted =>
        let ts := if ¬ c.autocommit ∧ c.transaction_status = .IDLE then
            TransactionStatus.INTRANS
          else c.transaction_status
        ({ c with transaction_status := ts }, none)
    | .rejected => ({ c with transaction_status := .INERROR }, some .DatabaseError)
    | .connectionLost =>
        ({ c with status := .BAD, transaction_status := .UNKNOWN },
         some .OperationalError)

/-- Modelled from the spec: `set_client_encoding` (§4.2) — a name the server
rejects (not in the table) surfaces `DatabaseError` and leaves the state
unchanged; on acceptance the canonical encoding and the (possibly
unresolved) codec are stored atomically. -/
def set_client_encoding (c : Conn) (name : String) : Conn × Option PgError :=
  match lookup_encoding name with
  | none => (c, some .DatabaseError)
  | some (canonical, codec) => ({ c with encoding := canonical, codec := codec }, none)

/-- Modelled from the spec: connection loss detected during an in-flight
operation (§7) — every waiter pending on the connection resolves with
`OperationalError` and the connection transitions to BAD.  Waiters are
identified by name. -/
def connection_lost (c : Conn) (waiters : List String) :
    Conn × List (String × PgError) :=
  ({ c with status := .BAD, transaction_status := .UNKNOWN },
   waiters.map (fun w => (w, PgError.OperationalError)))

/-- The operations a caller can run against an existing connection. -/
inductive Op where
  | close_op
  | set_autocommit_op (value : Bool)
  | execute_op (needs_decoding : Bool) (outcome : ServerOutcome)
  | set_client_encoding_op (name : String)

/-- Run one operation against a connection. -/
def apply_op : Op → Conn → Conn × Option PgError
  | .close_op, c => (close c, none)
  | .set_autocommit_op v, c => set_autocommit c v
  | .execute_op nd o, c => execute c nd o
  | .set_client_encoding_op n, c => set_client_encoding c n

/-- Modelled from the spec: initial encoding precedence (§4.2) — explicit
connect-time parameter, then the PGCLIENTENCODING environment value, then
the server default; first non-empty wins. -/
def initial_encoding_name (explicit_param env_value server_default : String) : String :=
  if explicit_param ≠ "" then explicit_param
  else if env_value ≠ "" then env_value
  else server_default

/-- Modelled from the spec: `connect` (§4.4) — on success the connection has
status OK, transaction status IDLE, autocommit false, and the initial
encoding resolved through the alias table. -/
def connect (explicit_param env_value server_default : String) : Option Conn :=
  match lookup_encoding (initial_encoding_name explicit_param env_value server_default) with
  | some (canonical, codec) => some ⟨.OK, .IDLE, false, canonical, codec⟩
  | none => none

/-- Modelled from the spec: `NoticeDispatcher.dispatch` (§4.3) — handlers in
registration order, each invoked with the event; a raising handler is caught
and logged (handler description and error text) and dispatch continues with
the remaining handlers; nothing propagates to the caller.  A handler is a
description plus a function that either returns an output or raises; the
result is the outputs in invocation order together with the error log. -/
def dispatch {E O : Type} (handlers : List (String × (E → Except String O)))
    (event : E) : List O × List (String × String) :=
  match handlers with
  | [] => ([], [])
  | (desc, h) :: rest =>
      let r := dispatch rest event
      match h event with
      | .ok o => (o :: r.1, r.2)
      | .error e => (r.1, (desc, e) :: r.2)

/-- A healthy idle connection. -/
def connOK : Conn := ⟨.OK, .IDLE, false, "UTF8", some "utf-8"⟩

/-- A closed connection. -/
def connClosed : Conn := ⟨.BAD, .UNKNOWN, false, "UTF8", some "utf-8"⟩

/-- A healthy idle connection with autocommit on. -/
def connAuto : Conn := ⟨.OK, .IDLE, true, "UTF8", some "utf-8"⟩

/-! Helper lemmas. -/

lemma str_contains_self (s : String) : str_contains s s := ⟨[], [], by simp⟩

lemma data_append (s t : String) : (s ++ t).data = s.data ++ t.data := rfl

lemma str_contains_appL (s t sub : String) (h : str_contains s sub) :
    str_contains (s ++ t) sub := by
  obtain ⟨a, b, hab⟩ := h
  exact ⟨a, b ++ t.data, by rw [data_append, ← hab]; simp⟩

lemma str_contains_appR (s t sub : String) (h : str_contains t sub) :
    str_contains (s ++ t) sub := by
  obtain ⟨a, b, hab⟩ := h
  exact ⟨s.data ++ a, b, by rw [data_append, ← hab]; simp⟩

lemma severityStep_self (p : String) (rest : List Char) :
    severityStep p (p.data ++ ':' :: ' ' :: rest) = some (rest.dropWhile isSpace) := by
  have he : p.data ++ ':' :: ' ' :: rest = (p.data ++ [':']) ++ (' ' :: rest) := by simp
  unfold severityStep
  rw [he, if_pos (List.isPrefixOf_iff_prefix.mpr (List.prefix_append _ _)), List.drop_left]
  simp [isSpace, List.dropWhile_cons]

lemma prefix_colon_eq (a : List Char) : ∀ (b c : List Char), ':' ∉ a → ':' ∉ b →
    (a ++ [':']) <+: (b ++ ':' :: c) → a = b := by
  induction a with
  | nil =>
    intro b c _ hb h
    cases b with
    | nil => rfl
    | cons y b' =>
      simp only [List.nil_append, List.cons_append] at h
      have h1 := (List.cons_prefix_cons.mp h).1
      subst h1
      exact absurd (List.mem_cons_self _ _) hb
  | cons x a' ih =>
    intro b c ha hb h
    cases b with
    | nil =>
      simp only [List.cons_append, List.nil_append] at h
      have h1 := (List.cons_prefix_cons.mp h).1
      subst h1
      exact absurd (List.mem_cons_self _ _) ha
    | cons y b' =>
      simp only [List.cons_append] at h
      obtain ⟨h1, h2⟩ := List.cons_prefix_cons.mp h
      subst h1
      rw [ih b' c (fun hm => ha (List.mem_cons_of_mem _ hm))
        (fun hm => hb (List.mem_cons_of_mem _ hm)) h2]

lemma severityStep_ne (q p : String) (rest : List Char) (hq : ':' ∉ q.data)
    (hp : ':' ∉ p.data) (hne : q ≠ p) :
    severityStep q (p.data ++ ':' :: ' ' :: rest) = none := by
  unfold severityStep
  rw [if_neg]
  intro hpre
  have h := prefix_colon_eq q.data p.data (' ' :: rest) hq hp
    (List.isPrefixOf_iff_prefix.mp hpre)
  exact hne (by cases q; cases p; cases h; rfl)

lemma findSome?_severity (L : List String) (p : String) (rest : List Char)
    (hp : p ∈ L) (hnc : ∀ q ∈ L, ':' ∉ q.data) :
    L.findSome? (fun q => severityStep q (p.data ++ ':' :: ' ' :: rest))
      = some (rest.dropWhile isSpace) := by
  induction L with
  | nil => cases hp
  | cons q L' ih =>
    by_cases hq : q = p
    · subst hq
      rw [List.findSome?_cons, severityStep_self]
    · rw [List.findSome?_cons,
        severityStep_ne q p rest (hnc q (List.mem_cons_self _ _)) (hnc p hp) hq]
      exact ih ((List.mem_cons.mp hp).resolve_left (fun h => hq h.symm))
        (fun r hr => hnc r (List.mem_cons_of_mem _ hr))

set_option maxRecDepth 10000 in
lemma colon_not_mem_prefixes : ∀ q ∈ severityPrefixes, ':' ∉ q.data := by decide

lemma strip_severity_prefix (p : String) (hp : p ∈ severityPrefixes) (rest : List Char) :
    strip_severity (String.mk (p.data ++ ':' :: ' ' :: rest)) = String.mk (trimChars rest) := by
  unfold strip_severity matchSeverity
  rw [show (String.mk (p.data ++ ':' :: ' ' :: rest)).data = p.data ++ ':' :: ' ' :: rest from rfl]
  rw [findSome?_severity _ p rest hp colon_not_mem_prefixes]
  show String.mk (trimChars (rest.dropWhile isSpace)) = String.mk (trimChars rest)
  unfold trimChars
  rw [List.dropWhile_idempotent]

lemma close_status_bad (c : Conn) : (close c).status = .BAD := by
  unfold close
  by_cases hb : c.status = .BAD
  · rw [if_pos hb]; exact hb
  · rw [if_neg hb]

lemma close_of_bad (c : Conn) (h : c.status = .BAD) : close c = c := by
  unfold close
  rw [if_pos h]

lemma bad_permanent (op : Op) (c : Conn) (h : c.status = .BAD) :
    ((apply_op op c).1).status = .BAD := by
  cases op with
  | close_op => simp only [apply_op]; exact close_status_bad c
  | set_autocommit_op v => simp [apply_op, set_autocommit, h]
  | execute_op nd o => simp [apply_op, execute, h]
  | set_client_encoding_op n =>
      simp only [apply_op, set_client_encoding]
      cases lookup_encoding n with
      | none => exact h
      | some p => exact h

lemma dispatch_fst (E O : Type) (handlers : List (String × (E → Except String O)))
    (event : E) :
    (dispatch handlers event).1 = handlers.filterMap (fun h => (h.2 event).toOption) := by
  induction handlers with
  | nil => rfl
  | cons hd rest ih =>
    obtain ⟨desc, h⟩ := hd
    simp only [dispatch, List.filterMap_cons]
    cases hh : h event with
    | ok o => simp [hh, Except.toOption, ih]
    | error e => simp [hh, Except.toOption, ih]

lemma dispatch_snd (E O : Type) (handlers : List (String × (E → Except String O)))
    (event : E) :
    (dispatch handlers event).2 = handlers.filterMap (fun h =>
      match h.2 event with
      | .error e => some (h.1, e)
      | .ok _ => none) := by
  induction handlers with
  | nil => rfl
  | cons hd rest ih =>
    obtain ⟨desc, h⟩ := hd
    simp only [dispatch, List.filterMap_cons]
    cases hh : h event with
    | ok o => simp [hh, ih]
    | error e => simp [hh, ih]

/-! Claim theorems. -/

/-- Claim C1: with `check = false`, `has_feature` returns `true` iff both the
runtime and the build version are at least the minimum, it never raises, and
when the feature is available it returns `true` even with `check = true`. -/
theorem has_feature_no_check (pq : PqModule) (feature : String) (want_version : Nat) :
    (has_feature pq feature want_version false = .ok true ↔
      want_version ≤ pq.version ∧ want_version ≤ pq.build_version)
  ∧ (∃ b, has_feature pq feature want_version false = .ok b)
  ∧ (want_version ≤ pq.version → want_version ≤ pq.build_version →
      has_feature pq feature want_version true = .ok true) := by
  unfold has_feature feature_msg
  by_cases h1 : pq.version < want_version <;>
    by_cases h2 : pq.build_version < want_version <;>
      (simp [h1, h2]; try omega)

/-- Claim C1 witness: concrete application at runtime 14.0, build 14.0,
feature requiring 14.0. -/
theorem has_feature_no_check_witness :
    has_feature ⟨140000, 140000, "c", none⟩ "Connection.pipeline()" 140000 true = .ok true :=
  (has_feature_no_check ⟨140000, 140000, "c", none⟩ "Connection.pipeline()" 140000).2.2
    (by norm_num) (by norm_num)

set_option maxRecDepth 8000 in
/-- Claim C2 counterexample: with runtime 13.0 and build 12.0, requiring 14.0
with `check = true` raises, but the message does not contain the observed
build version "12.0" — only the runtime version appears, so the two observed
versions are not both present in the message. -/
theorem has_feature_both_versions_counterexample :
    has_feature pqSkew "f" 140000 true = .error (.NotSupportedError msgSkew)
  ∧ version_pretty pqSkew.build_version = "12.0"
  ∧ ¬ str_contains msgSkew (version_pretty pqSkew.build_version) :=
  ⟨rfl, rfl, by decide⟩

/-- Claim C2 (amended): with `check = true`, `has_feature` raises
`NotSupportedError` exactly when the runtime version or the build version is
below the minimum; the message contains the feature name and the required
version, and contains the observed runtime version together with its source
when the runtime version is below the minimum, otherwise the observed build
version — only the offending version, not both. -/
theorem has_feature_check_message (pq : PqModule) (feature : String) (want_version : Nat) :
    ((∃ e, has_feature pq feature want_version true = .error e) ↔
      pq.version < want_version ∨ pq.build_version < want_version)
  ∧ (∀ m, has_feature pq feature want_version true = .error (.NotSupportedError m) →
      str_contains m feature
      ∧ str_contains m (version_pretty want_version)
      ∧ (if pq.version < want_version then
          str_contains m (version_pretty pq.version) ∧ str_contains m (libpq_source pq)
        else
          str_contains m (version_pretty pq.build_version))) := by
  constructor
  · unfold has_feature feature_msg
    by_cases h1 : pq.version < want_version <;> by_cases h2 : pq.build_version < want_version <;>
      simp [h1, h2]
  · intro m hm
    have hfm : feature_msg pq feature want_version = some m := by
      unfold has_feature at hm
      cases hfm : feature_msg pq feature want_version with
      | none => rw [hfm] at hm; simp at hm
      | some msg => rw [hfm] at hm; simp at hm; rw [hm]
    unfold feature_msg at hfm
    by_cases h1 : pq.version < want_version
    · rw [if_pos h1] at hfm
      simp only [Option.some.injEq] at hfm
      subst hfm
      simp only [if_pos h1]
      refine ⟨?_, ?_, ?_, ?_⟩ <;>
        repeat first
          | exact str_contains_self _
          | exact str_contains_appR _ _ _ (str_contains_self _)
          | apply str_contains_appL
    · by_cases h2 : pq.build_version < want_version
      · rw [if_neg h1, if_pos h2] at hfm
        simp only [Option.some.injEq] at hfm
        subst hfm
        simp only [if_neg h1]
        refine ⟨?_, ?_, ?_⟩ <;>
          repeat first
            | exact str_contains_self _
            | exact str_contains_appR _ _ _ (str_contains_self _)
            | apply str_contains_appL
      · rw [if_neg h1, if_neg h2] at hfm
        exact absurd hfm (by simp)

/-- Claim C2 witness: the amended theorem applied at runtime 13.0, build
12.0, feature "f" requiring 14.0. -/
theorem has_feature_check_message_witness :
    str_contains msgSkew "f"
  ∧ str_contains msgSkew (version_pretty 140000)
  ∧ (if pqSkew.version < 140000 then
      str_contains msgSkew (version_pretty pqSkew.version)
      ∧ str_contains msgSkew (libpq_source pqSkew)
    else
      str_contains msgSkew (version_pretty pqSkew.build_version)) :=
  (has_feature_check_message pqSkew "f" 140000).2 msgSkew rfl

/-- Claim C3: for a version encoded as `major * 10000 + minor * 100 + patch`,
`version_pretty` renders "major.minor.patch", collapsing to "major.patch"
when `minor = 0` and `major ≥ 10`; in particular 140002 renders as "14.2"
and 90610 as "9.6.10". -/
theorem version_pretty_spec (major minor patch : Nat) (hm : minor < 100) (hp : patch < 100) :
    version_pretty (major * 10000 + minor * 100 + patch)
      = (if minor = 0 ∧ 10 ≤ major then
          toString major ++ "." ++ toString patch
        else
          toString major ++ "." ++ toString minor ++ "." ++ toString patch)
  ∧ version_pretty 140002 = "14.2" ∧ version_pretty 90610 = "9.6.10" := by
  refine ⟨?_, rfl, rfl⟩
  unfold version_pretty
  have h1 : (major * 10000 + minor * 100 + patch) % 100 = patch := by omega
  have h2 : (major * 10000 + minor * 100 + patch) / 100 = major * 100 + minor := by omega
  have h3 : (major * 100 + minor) / 100 = major := by omega
  have h4 : (major * 100 + minor) % 100 = minor := by omega
  simp only [h1, h2, h3, h4]
  by_cases hz : minor = 0 <;> by_cases hM : 10 ≤ major <;> simp [hz, hM]

/-- Claim C3 witness: the theorem applied at 14.0.2 and 9.6.10. -/
theorem version_pretty_spec_witness :
    version_pretty 140002 = "14.2" ∧ version_pretty 90610 = "9.6.10" :=
  ⟨(version_pretty_spec 14 0 2 (by norm_num) (by norm_num)).2.1,
   (version_pretty_spec 9 6 10 (by norm_num) (by norm_num)).2.2⟩

/-- Claim C4: setting autocommit succeeds exactly when `status == OK` and
`transaction_status == IDLE` and otherwise fails with `ProgrammingError`
leaving the connection (in particular its autocommit field) unchanged; after
close the transaction status is UNKNOWN and the setter always fails; and
with autocommit on, executing a single statement never transitions the
transaction status into IN_TRANSACTION. -/
theorem autocommit_guard_spec :
    (∀ (c : Conn) (v : Bool), c.status = .OK → c.transaction_status = .IDLE →
      set_autocommit c v = ({ c with autocommit := v }, none))
  ∧ (∀ (c : Conn) (v : Bool), ¬ (c.status = .OK ∧ c.transaction_status = .IDLE) →
      set_autocommit c v = (c, some .ProgrammingError))
  ∧ (∀ c : Conn, WF c → (close c).transaction_status = .UNKNOWN
      ∧ set_autocommit (close c) true = (close c, some .ProgrammingError))
  ∧ (∀ (c : Conn) (needs_decoding : Bool) (outcome : ServerOutcome),
      c.autocommit = true → c.transaction_status ≠ .INTRANS →
      (execute c needs_decoding outcome).1.transaction_status ≠ .INTRANS) := by
  refine ⟨?_, ?_, ?_, ?_⟩
  · intro c v h1 h2
    unfold set_autocommit
    rw [if_pos ⟨h1, h2⟩]
  · intro c v h
    unfold set_autocommit
    rw [if_neg h]
  · intro c hwf
    have hbad := close_status_bad c
    constructor
    · unfold close
      by_cases hb : c.status = .BAD
      · rw [if_pos hb]; exact hwf hb
      · rw [if_neg hb]
    · unfold set_autocommit
      rw [if_neg]
      rintro ⟨h1, -⟩
      rw [hbad] at h1
      cases h1
  · intro c nd o hac hts
    unfold execute
    by_cases h1 : c.status ≠ .OK
    · rw [if_pos h1]; exact hts
    · rw [if_neg h1]
      by_cases h2 : nd = true ∧ c.codec = none
      · rw [if_pos h2]; exact hts
      · rw [if_neg h2]
        cases o with
        | accepted => simp [hac]; exact hts
        | rejected => simp
        | connectionLost => simp

/-- Claim C4 witness: the setter fails on a closed connection leaving
autocommit unchanged, and an accepted statement on an idle autocommit
connection does not enter a transaction. -/
theorem autocommit_guard_spec_witness :
    set_autocommit connClosed true = (connClosed, some .ProgrammingError)
  ∧ (execute connAuto false .accepted).1.transaction_status ≠ .INTRANS :=
  ⟨autocommit_guard_spec.2.1 connClosed true (by simp [connClosed]),
   autocommit_guard_spec.2.2.2 connAuto false .accepted rfl (by simp [connAuto])⟩

/-- Claim C5: `close` never fails (it is a total function), it sets the
status to BAD and marks the connection closed, a second call is a no-op, and
a BAD status is permanent under every further operation. -/
theorem close_spec : ∀ c : Conn,
    ((close c).status = .BAD ∧ closed (close c) = true)
  ∧ close (close c) = close c
  ∧ (c.status = .BAD → ∀ op : Op, ((apply_op op c).1).status = .BAD) := by
  intro c
  have hbad := close_status_bad c
  refine ⟨⟨hbad, ?_⟩, ?_, ?_⟩
  · simp [closed, hbad]
  · exact close_of_bad _ hbad
  · intro h op
    exact bad_permanent op c h

/-- Claim C5 witness: closing an already-closed connection keeps the status
BAD. -/
theorem close_spec_witness :
    ((apply_op Op.close_op connClosed).1).status = .BAD :=
  (close_spec connClosed).2.2 rfl Op.close_op

/-- Claim C6: connection loss during an in-flight operation resolves every
waiter with `OperationalError`, surfaces `OperationalError` from the
executing statement itself, and transitions the connection to BAD
permanently (no further operation leaves BAD). -/
theorem broken_connection_spec :
    (∀ (c : Conn) (waiters : List String),
      (connection_lost c waiters).1.status = .BAD
      ∧ (connection_lost c waiters).2.length = waiters.length
      ∧ ∀ r ∈ (connection_lost c waiters).2, r.2 = PgError.OperationalError)
  ∧ (∀ c : Conn, c.status = .OK →
      execute c false .connectionLost
        = ({ c with status := .BAD, transaction_status := .UNKNOWN },
           some .OperationalError))
  ∧ (∀ (c : Conn) (waiters : List String) (op : Op),
      ((apply_op op (connection_lost c waiters).1).1).status = .BAD) := by
  refine ⟨?_, ?_, ?_⟩
  · intro c waiters
    refine ⟨rfl, by simp [connection_lost], ?_⟩
    intro r hr
    simp [connection_lost] at hr
    obtain ⟨w, -, hw⟩ := hr
    rw [← hw]
  · intro c h
    unfold execute
    rw [if_neg (by simp [h])]
    rw [if_neg (by simp)]
  · intro c waiters op
    exact bad_permanent op _ rfl

/-- Claim C6 witness: losing the connection while a statement is in flight on
a healthy connection surfaces `OperationalError` and sets BAD. -/
theorem broken_connection_spec_witness :
    execute connOK false .connectionLost
      = ({ connOK with status := .BAD, transaction_status := .UNKNOWN },
         some .OperationalError) :=
  broken_connection_spec.2.1 connOK rfl

/-- Claim C7: dispatch invokes the handlers in registration order (its
outputs and its error log are the order-preserving projections of the
handler list), never propagates a handler failure (it is a total function
into outputs and log), and a failing handler neither stops the remaining
handlers nor goes unlogged. -/
theorem notice_dispatch_spec :
    (∀ (E O : Type) (handlers : List (String × (E → Except String O))) (event : E),
      (dispatch handlers event).1
          = handlers.filterMap (fun h => (h.2 event).toOption)
      ∧ (dispatch handlers event).2
          = handlers.filterMap (fun h =>
              match h.2 event with
              | .error e => some (h.1, e)
              | .ok _ => none))
  ∧ (∀ (E O : Type) (pre post : List (String × (E → Except String O)))
      (desc : String) (f : E → Except String O) (e : String) (event : E),
      f event = .error e →
      (dispatch (pre ++ (desc, f) :: post) event).1
          = (dispatch pre event).1 ++ (dispatch post event).1
      ∧ (desc, e) ∈ (dispatch (pre ++ (desc, f) :: post) event).2) := by
  constructor
  · intro E O handlers event
    exact ⟨dispatch_fst E O handlers event, dispatch_snd E O handlers event⟩
  · intro E O pre post desc f e event hf
    constructor
    · rw [dispatch_fst, dispatch_fst, dispatch_fst, List.filterMap_append,
        List.filterMap_cons]
      simp [hf, Except.toOption]
    · rw [dispatch_snd]
      refine List.mem_filterMap.mpr ⟨(desc, f), ?_, ?_⟩
      · exact List.mem_append_right _ (List.mem_cons_self _ _)
      · simp [hf]

/-- Claim C7 witness: a raising handler between two others leaves the other
outputs intact and is logged with its description and error text. -/
theorem notice_dispatch_spec_witness :
    (dispatch ([] ++ ("cb2", fun _ => .error "hello from cb2") ::
        [("cb3", fun _ => .ok 0)]) (0 : Nat)).1
      = (dispatch ([] : List (String × (Nat → Except String Nat))) 0).1
          ++ (dispatch [("cb3", fun _ => (.ok 0 : Except String Nat))] 0).1
  ∧ ("cb2", "hello from cb2")
      ∈ (dispatch ([] ++ ("cb2", fun _ => .error "hello from cb2") ::
          [("cb3", fun _ => .ok 0)]) (0 : Nat)).2 :=
  notice_dispatch_spec.2 Nat Nat [] [("cb3", fun _ => .ok 0)] "cb2"
    (fun _ => .error "hello from cb2") "hello from cb2" 0 rfl

/-- Claim C8: encoding aliases are compared case-insensitively and ignoring
"-"/"_" separators: "utf8", "utf-8", "utf_8" (and "UTF-8") all yield
canonical "UTF8" with codec "utf-8", and "eucjp"/"euc-jp" yield "EUC_JP"
with codec "euc_jp" — both through `set_client_encoding` and through the
initial-encoding environment variable at connect time. -/
theorem normalize_encoding_spec : ∀ c : Conn,
    ((set_client_encoding c "utf8").1.encoding = "UTF8"
      ∧ (set_client_encoding c "utf8").1.codec = some "utf-8")
  ∧ ((set_client_encoding c "utf-8").1.encoding = "UTF8"
      ∧ (set_client_encoding c "utf-8").1.codec = some "utf-8")
  ∧ ((set_client_encoding c "utf_8").1.encoding = "UTF8"
      ∧ (set_client_encoding c "utf_8").1.codec = some "utf-8")
  ∧ ((set_client_encoding c "UTF-8").1.encoding = "UTF8"
      ∧ (set_client_encoding c "UTF-8").1.codec = some "utf-8")
  ∧ ((set_client_encoding c "eucjp").1.encoding = "EUC_JP"
      ∧ (set_client_encoding c "eucjp").1.codec = some "euc_jp")
  ∧ ((set_client_encoding c "euc-jp").1.encoding = "EUC_JP"
      ∧ (set_client_encoding c "euc-jp").1.codec = some "euc_jp")
  ∧ connect "" "utf8" "SQL_ASCII" = some ⟨.OK, .IDLE, false, "UTF8", some "utf-8"⟩
  ∧ connect "" "utf-8" "SQL_ASCII" = some ⟨.OK, .IDLE, false, "UTF8", some "utf-8"⟩
  ∧ connect "" "utf_8" "SQL_ASCII" = some ⟨.OK, .IDLE, false, "UTF8", some "utf-8"⟩
  ∧ connect "" "eucjp" "SQL_ASCII" = some ⟨.OK, .IDLE, false, "EUC_JP", some "euc_jp"⟩
  ∧ connect "" "euc-jp" "SQL_ASCII" = some ⟨.OK, .IDLE, false, "EUC_JP", some "euc_jp"⟩ := by
  intro c
  exact ⟨⟨rfl, rfl⟩, ⟨rfl, rfl⟩, ⟨rfl, rfl⟩, ⟨rfl, rfl⟩, ⟨rfl, rfl⟩, ⟨rfl, rfl⟩,
    rfl, rfl, rfl, rfl, rfl⟩

/-- Claim C9: a name the server accepts but that has no local codec
("EUC_TW") makes `set_client_encoding` itself succeed with the codec left
unresolved, and `NotSupportedError` is raised only at a later statement
execution that requires local decoding; a name the server rejects ("WAT")
makes `set_client_encoding` itself fail with `DatabaseError`. -/
theorem deferred_encoding_spec :
    (∀ c : Conn, set_client_encoding c "EUC_TW"
        = ({ c with encoding := "EUC_TW", codec := none }, none))
  ∧ (∀ c : Conn, c.status = .OK → c.codec = none →
      ∀ outcome : ServerOutcome, execute c true outcome
        = (c, some (.NotSupportedError c.encoding)))
  ∧ (∀ c : Conn, c.status = .OK → ∀ outcome : ServerOutcome,
      (execute (set_client_encoding c "EUC_TW").1 true outcome).2
        = some (.NotSupportedError "EUC_TW"))
  ∧ (∀ c : Conn, set_client_encoding c "WAT" = (c, some .DatabaseError)) := by
  have h1 : ∀ c : Conn, set_client_encoding c "EUC_TW"
      = ({ c with encoding := "EUC_TW", codec := none }, none) := fun c => rfl
  have h2 : ∀ c : Conn, c.status = .OK → c.codec = none →
      ∀ outcome : ServerOutcome, execute c true outcome
        = (c, some (.NotSupportedError c.encoding)) := by
    intro c hst hcd outcome
    unfold execute
    rw [if_neg (by simp [hst]), if_pos ⟨rfl, hcd⟩]
  refine ⟨h1, h2, ?_, fun c => rfl⟩
  intro c hst outcome
  have hc : (set_client_encoding c "EUC_TW").1
      = { c with encoding := "EUC_TW", codec := none } := by rw [h1 c]
  rw [hc, h2 { c with encoding := "EUC_TW", codec := none } hst rfl outcome]

/-- Claim C9 witness: on a healthy connection, after `set_client_encoding
"EUC_TW"` succeeds, the next decoding statement fails with
`NotSupportedError`. -/
theorem deferred_encoding_spec_witness :
    (execute (set_client_encoding connOK "EUC_TW").1 true .accepted).2
      = some (.NotSupportedError "EUC_TW") :=
  deferred_encoding_spec.2.2.1 connOK rfl .accepted

/-- Claim C10: `error_message` always returns a string (it is total for every
`PGconn`/`PGresult` argument and every total replacing decoder); an empty
underlying message yields the fixed string "no details available"; a
nonempty one yields the decoded text with a recognized localized severity
prefix and surrounding whitespace stripped. -/
theorem error_message_spec :
    (∀ decode obj encoding, bmsgOf obj = [] →
      error_message decode obj encoding = "no details available")
  ∧ (∀ decode obj encoding, bmsgOf obj ≠ [] →
      error_message decode obj encoding
        = strip_severity (decode (encodingUsed obj encoding) (bmsgOf obj)))
  ∧ (∀ p, p ∈ severityPrefixes → ∀ rest : List Char,
      strip_severity (String.mk (p.data ++ ':' :: ' ' :: rest))
        = String.mk (trimChars rest)) := by
  refine ⟨?_, ?_, ?_⟩
  · intro decode obj encoding h
    unfold error_message
    rw [if_pos h]
  · intro decode obj encoding h
    unfold error_message
    rw [if_neg h]
  · intro p hp rest
    exact strip_severity_prefix p hp rest

/-- Claim C10 witness: an empty message is reported as "no details
available", and a "WARNING:"-prefixed text is stripped. -/
theorem error_message_spec_witness :
    error_message (fun _ _ => "unused") (.result []) "utf8" = "no details available"
  ∧ strip_severity (String.mk ("WARNING".data ++ ':' :: ' ' :: "boom ".data))
      = String.mk (trimChars "boom ".data) :=
  ⟨error_message_spec.1 (fun _ _ => "unused") (.result []) "utf8" rfl,
   error_message_spec.2.2 "WARNING" (by decide) "boom ".data⟩

end Psycopg
